import Mathlib

/-!
Verification of the batch email delivery engine and its surrounding
components (Telegram email tester bot).

The Python sources are shallowly embedded:

* `email_handler.py` — `_send_emails_sync` (the delivery engine core),
  `establish_connection`, `_create_test_message`, and the timeout constants
  of `_test_connection_sync`.  SMTP network behaviour is abstracted by an
  oracle (`SmtpOracle`) that fixes the outcome of the n-th connection
  attempt / message transmission / mid-batch quit, the entropy of the n-th
  `random.randint` call and the n-th formatted `datetime.now()` reading.
  Python exception control flow (`try`/`except`) is translated into explicit
  branching on those outcomes; Python's `dict` assignment is translated by
  `dictInsert` (insert-or-overwrite, preserving insertion order).

* `simple_bot.py` — `send_batch_emails` (the campaign coordinator step),
  embedded as a step function on the session-state fields it mutates
  (`current_recipient_index`, `current_domain_index`, counters).

* `domain_manager.py` — the domain store operations (`add_domain`,
  `remove_domain`, `add_bulk_domains`); file persistence (`_save_domains`)
  is modelled as succeeding.

* `validators.py` — the module defines `validate_email` and
  `validate_email_list` twice; the second definitions shadow the first
  (Python executes the module top to bottom), so the embedding follows the
  second definitions (lines 210–253).

String-valued error messages interpolate `str(e)` of the caught Python
exception; the embedding keeps only the fixed prefix of each message, the
exception text itself being opaque.
-/

/-! ## Python-style string helpers (over `String.data` character lists) -/

/-- Python `str.strip()` with no argument: drop leading and trailing
whitespace (modelled with `Char.isWhitespace`). -/
def pyStripChars (cs : List Char) : List Char :=
  ((cs.dropWhile Char.isWhitespace).reverse.dropWhile Char.isWhitespace).reverse

/-- Python `str.strip()` on a `String`. -/
def pyStrip (s : String) : String := ⟨pyStripChars s.data⟩

/-- Python `str.rstrip('/')`: drop every trailing `'/'`. -/
def pyRstripSlash (s : String) : String :=
  ⟨(s.data.reverse.dropWhile (fun c => c = '/')).reverse⟩

/-- Python `str.startswith(pre)`. -/
def pyStartsWith (s pre : String) : Bool :=
  s.data.take pre.data.length == pre.data

/-- Python `str.title()` restricted to ASCII: a letter is uppercased when the
previous character is not a letter and lowercased otherwise
(`domain_manager.py` only applies it to domain names). -/
def pyTitleChars : Bool → List Char → List Char
  | _, [] => []
  | prevAlpha, c :: cs =>
    (if c.isAlpha then (if prevAlpha then c.toLower else c.toUpper) else c)
      :: pyTitleChars c.isAlpha cs

/-- Python `str.title()` on a `String`. -/
def pyTitle (s : String) : String := ⟨pyTitleChars false s.data⟩

/-! ## Message composer (`EmailHandler._create_test_message`) -/

/-- Python `random.randint(lo, hi)` (inclusive bounds), driven by an
abstract entropy value. -/
def randint (lo hi entropy : Nat) : Nat := lo + entropy % (hi - lo + 1)

/-- The inline CSS of the button link in `_create_test_message`. -/
def linkStyle : String :=
  "display: inline-block; text-decoration: none; background-color: blue; color: white; padding: 10px 20px; border-radius: 4px; font-weight: bold;"

/-- The `html_content` f-string of `_create_test_message`, as a function of
the interpolated domain, button text and timestamp string. -/
def htmlContent (domain btn ts : String) : String :=
  "\n" ++
    ("<a href=\"https://" ++ domain ++ "\" target=\"_blank\" style=\"" ++ linkStyle ++ "\">" ++ btn ++ "</a>") ++
    ("\n        <p style=\"font-size: 14px; color: #6c757d;\">\n            • URL: " ++
      ("https://" ++ domain) ++ "<br>\n        </p> <p>" ++ ("Timestamp: " ++ ts) ++ "</p>\n        ")

/-- The `text_content` f-string of `_create_test_message`. -/
def textContent (domain btn : String) : String :=
  "\nEmail Delivery Test - Telegram Bot\n\nThis is a test email sent via Telegram Email Tester Bot.\n\n" ++
    ("Test Link: https://" ++ domain) ++ "\n" ++ ("Button Text: " ++ btn) ++
    "\n\nIf you received this email, your SMTP configuration is working correctly!\n\n---\nThis email was sent by Telegram Email Tester Bot\n        "

/-- The composed MIME message: From/To/Subject headers plus the plain and
HTML alternative bodies. -/
structure TestMessage where
  fromHeader : String
  toAddr : String
  subject : String
  textBody : String
  htmlBody : String
deriving DecidableEq, Repr

/-- `EmailHandler._create_test_message(recipient_email)`: button text is
`str(random.randint(100000, 999999))`, the timestamp string is
`datetime.datetime.now().strftime("%Y-%m-%d %H:%M:%S UTC")` — the oracle
supplies the `%Y-%m-%d %H:%M:%S` part (`nowStr`) and the format string
appends the literal `" UTC"`. -/
def create_test_message (fromEmail customDomain recipient : String)
    (entropy : Nat) (nowStr : String) : TestMessage :=
  { fromHeader := "Email Tester Bot <" ++ fromEmail ++ ">"
  , toAddr := recipient
  , subject := "Email Delivery Test - Telegram Bot"
  , textBody := textContent customDomain (Nat.repr (randint 100000 999999 entropy))
  , htmlBody := htmlContent customDomain (Nat.repr (randint 100000 999999 entropy)) (nowStr ++ " UTC") }

/-! ## Delivery engine (`EmailHandler._send_emails_sync`) -/

/-- Classification of the Python exceptions distinguished by
`_send_emails_sync`'s handlers: `smtplib.SMTPRecipientsRefused`;
`smtplib.SMTPServerDisconnected` / `smtplib.SMTPResponseException`
(handled identically, hence one constructor); anything else. -/
inductive PyExn where
  | smtpRecipientsRefused
  | smtpDisconnected
  | otherExn
deriving DecidableEq, Repr

/-- Abstract SMTP environment: the outcome of the n-th connect-and-login
attempt, of the n-th `server.send_message` call and of the n-th mid-batch
`server.quit()`, the entropy of the n-th `random.randint` call and the n-th
formatted clock reading (`none` = the operation succeeds, `some e` = it
raises `e`; `quitFails n = true` = the quit raises). -/
structure SmtpOracle where
  connOutcome : Nat → Option PyExn
  sendOutcome : Nat → Option PyExn
  quitFails : Nat → Bool
  randEntropy : Nat → Nat
  nowFmt : Nat → String

/-- Python `dict` assignment `m[k] = v`: overwrite in place if the key is
present, else append. -/
def dictInsert (m : List (String × String)) (k v : String) : List (String × String) :=
  if m.any (fun p => p.1 == k) then m.map (fun p => if p.1 == k then (k, v) else p)
  else m ++ [(k, v)]

/-- Keys of an embedded Python dict, in insertion order. -/
def dictKeys (m : List (String × String)) : List String := m.map Prod.fst

/-- The mutable state of one `_send_emails_sync` call.  `connCount`,
`sendCount` and `quitCount` index into the oracle; `estCount` counts the
calls of `establish_connection`; `composeCount` counts the calls of
`_create_test_message`; `age` is `connection_age`; `log` records every
`server.send_message` attempt with the message it transmitted. -/
structure BatchSt where
  connCount : Nat
  estCount : Nat
  sendCount : Nat
  quitCount : Nat
  composeCount : Nat
  age : Nat
  successful : List String
  failed : List (String × String)
  log : List TestMessage
deriving DecidableEq, Repr

/-- `establish_connection()` (email_handler.py lines 119–140): up to
`max_retries = 2` single connection attempts; the first failure is retried
after a fixed 2 s sleep, the second is re-raised.  Returns the raised
exception (if any) and the new connection-attempt counter. -/
def establish_connection (o : SmtpOracle) (c : Nat) : Option PyExn × Nat :=
  match o.connOutcome c with
  | none => (none, c + 1)
  | some _ =>
    match o.connOutcome (c + 1) with
    | none => (none, c + 2)
    | some e2 => (some e2, c + 2)

/-- The inner `for attempt in range(2)` send loop of `_send_emails_sync`
(lines 165–190) for one recipient `e`, transmitting the already composed
message `msg`.  All exceptions are handled inside the loop, so it returns a
plain state: success appends to `successful` and bumps `connection_age`;
`SMTPRecipientsRefused` records the recipient as failed at once;
`SMTPServerDisconnected`/`SMTPResponseException` on the first attempt
reconnects (one `establish_connection` call) and retries the same message
once; any other exception records a generic failure. -/
def send_attempt_loop (o : SmtpOracle) (e : String) (msg : TestMessage) (s : BatchSt) : BatchSt :=
  match o.sendOutcome s.sendCount with
  | none =>
      { s with sendCount := s.sendCount + 1, log := s.log ++ [msg],
               successful := s.successful ++ [e], age := s.age + 1 }
  | some PyExn.smtpRecipientsRefused =>
      { s with sendCount := s.sendCount + 1, log := s.log ++ [msg],
               failed := dictInsert s.failed e "Recipient refused" }
  | some PyExn.smtpDisconnected =>
      match establish_connection o s.connCount with
      | (some _, c) =>
          { s with sendCount := s.sendCount + 1, log := s.log ++ [msg],
                   estCount := s.estCount + 1, connCount := c,
                   failed := dictInsert s.failed e "Connection retry failed" }
      | (none, c) =>
          match o.sendOutcome (s.sendCount + 1) with
          | none =>
              { s with sendCount := s.sendCount + 2, log := s.log ++ [msg, msg],
                       estCount := s.estCount + 1, connCount := c, age := 1,
                       successful := s.successful ++ [e] }
          | some PyExn.smtpRecipientsRefused =>
              { s with sendCount := s.sendCount + 2, log := s.log ++ [msg, msg],
                       estCount := s.estCount + 1, connCount := c, age := 0,
                       failed := dictInsert s.failed e "Recipient refused" }
          | some PyExn.smtpDisconnected =>
              { s with sendCount := s.sendCount + 2, log := s.log ++ [msg, msg],
                       estCount := s.estCount + 1, connCount := c, age := 0,
                       failed := dictInsert s.failed e "Send retry failed" }
          | some PyExn.otherExn =>
              { s with sendCount := s.sendCount + 2, log := s.log ++ [msg, msg],
                       estCount := s.estCount + 1, connCount := c, age := 0,
                       failed := dictInsert s.failed e "Send error" }
  | some PyExn.otherExn =>
      { s with sendCount := s.sendCount + 1, log := s.log ++ [msg],
               failed := dictInsert s.failed e "Send error" }

/-- One iteration of the outer `for i, email in enumerate(email_list)` loop
of `_send_emails_sync` (lines 152–199).  When `connection_age >= 10` and the
recipient is not the last one, the connection is proactively refreshed
(`server.quit()` then `establish_connection()`); an exception from either is
caught by the per-recipient handler (line 197) and recorded as a
`Processing error`, leaving `connection_age` untouched.  Otherwise the
message is composed (consuming one `randint` and one clock reading) and the
send loop runs. -/
def process_email (o : SmtpOracle) (fromEmail customDomain e : String)
    (isLast : Bool) (s : BatchSt) : BatchSt :=
  if 10 ≤ s.age ∧ isLast = false then
    if o.quitFails s.quitCount then
      { s with quitCount := s.quitCount + 1,
               failed := dictInsert s.failed e "Processing error" }
    else
      match establish_connection o s.connCount with
      | (some _, c) =>
          { s with quitCount := s.quitCount + 1, estCount := s.estCount + 1,
                   connCount := c,
                   failed := dictInsert s.failed e "Processing error" }
      | (none, c) =>
          send_attempt_loop o e
            (create_test_message fromEmail customDomain e
              (o.randEntropy s.composeCount) (o.nowFmt s.composeCount))
            { s with quitCount := s.quitCount + 1, estCount := s.estCount + 1,
                     connCount := c, age := 0, composeCount := s.composeCount + 1 }
  else
    send_attempt_loop o e
      (create_test_message fromEmail customDomain e
        (o.randEntropy s.composeCount) (o.nowFmt s.composeCount))
      { s with composeCount := s.composeCount + 1 }

/-- The outer recipient loop, in strict input order; `isLast` mirrors the
Python condition `i < len(email_list) - 1`. -/
def process_emails (o : SmtpOracle) (fromEmail customDomain : String) :
    List String → BatchSt → BatchSt
  | [], s => s
  | e :: rest, s =>
      process_emails o fromEmail customDomain rest
        (process_email o fromEmail customDomain e rest.isEmpty s)

/-- The `for email in email_list` fill of the batch-level `except` handler
(lines 204–206): every email not already in `successful` and not already a
key of `failed` is recorded with an `SMTP connection error` reason. -/
def fill_all_failed (succ : List String) :
    List (String × String) → List String → List (String × String)
  | m, [] => m
  | m, e :: rest =>
      if e ∈ succ ∨ e ∈ dictKeys m then fill_all_failed succ m rest
      else fill_all_failed succ (m ++ [(e, "SMTP connection error")]) rest

/-- The state at entry of the recipient loop, after the initial
`establish_connection()` consumed `c` connection attempts. -/
def initialBatchSt (c : Nat) : BatchSt :=
  { connCount := c, estCount := 1, sendCount := 0, quitCount := 0,
    composeCount := 0, age := 0, successful := [], failed := [], log := [] }

/-- `EmailHandler._send_emails_sync(email_list)` (lines 112–224).  If the
initial `establish_connection()` raises (both attempts failed), control
jumps to the batch-level handler, which fills `failed` for every recipient;
the recipient loop itself lets no exception escape (every handler inside it
is total), so that handler is reachable only from the initial connection.
The `finally: server.quit()` has no effect on the returned result and is
not modelled. -/
def send_emails_sync (o : SmtpOracle) (fromEmail customDomain : String)
    (emailList : List String) : BatchSt :=
  match establish_connection o 0 with
  | (some _, c) => { initialBatchSt c with failed := fill_all_failed [] [] emailList }
  | (none, c) => process_emails o fromEmail customDomain emailList (initialBatchSt c)

/-! ## Connection timeouts (`_test_connection_sync` and `establish_connection`) -/

/-- A pair of socket timeouts: the `timeout=` argument of the
`smtplib.SMTP`/`SMTP_SSL` constructor (connect) and the subsequent
`server.sock.settimeout(...)` applied before `login`/sends (operation). -/
structure SmtpTimeouts where
  connectTimeout : Nat
  operationTimeout : Nat
deriving DecidableEq, Repr

/-- `_test_connection_sync` (email_handler.py lines 49–62):
`smtplib.SMTP(self.host, self.port, timeout=15)` then
`server.sock.settimeout(12)`. -/
def testConnectionTimeouts : SmtpTimeouts := ⟨15, 12⟩

/-- `establish_connection` (email_handler.py lines 124–130):
`smtplib.SMTP(self.host, self.port, timeout=25)` then
`server.sock.settimeout(20)`. -/
def batchConnectionTimeouts : SmtpTimeouts := ⟨25, 20⟩

/-! ## Campaign coordinator (`SimpleBot.send_batch_emails`, simple_bot.py lines 744–893) -/

/-- The session fields mutated by `send_batch_emails`:
`current_recipient_index`, `current_domain_index`, `total_successful`,
`total_failed` (all initialised to 0 on the first invocation). -/
structure CampaignSt where
  recipientIndex : Nat
  domainIndex : Nat
  totalSuccessful : Nat
  totalFailed : Nat
deriving DecidableEq, Repr

/-- Abstract environment for a campaign: `connTestOk r a` is the outcome of
connection-test attempt `a` for recipient index `r` (the test runs only when
`current_domain_index == 0`, with up to 2 attempts); `sendOk r d` is whether
`send_single_email` reports success for recipient index `r` and domain
index `d` (exceptions and reported failures both count as `false`, each
adding one to `failed_sends`). -/
structure CampaignOracle where
  connTestOk : Nat → Nat → Bool
  sendOk : Nat → Nat → Bool

/-- `domains_to_send = min(5, len(domains) - current_domain_index)`. -/
def sliceSize (numDomains domainIndex : Nat) : Nat := min 5 (numDomains - domainIndex)

/-- The (recipient index, domain index) pairs sent by one invocation:
`domains[current_domain_index + i]` for `i in range(domains_to_send)`, all
for the single current recipient. -/
def slicePairs (r d k : Nat) : List (Nat × Nat) :=
  (List.range k).map (fun i => (r, d + i))

/-- `successful_sends` of one invocation. -/
def sliceSuccess (o : CampaignOracle) (r d k : Nat) : Nat :=
  ((slicePairs r d k).filter (fun p => o.sendOk p.1 p.2)).length

/-- The observable outcome of one `send_batch_emails` invocation:
the campaign-complete report (which deletes the session), the
connection-failure stop (which also deletes the session), or a continued
session together with the list of (recipient, domain) pairs sent. -/
inductive BatchStepResult where
  | complete (totalSuccessful totalFailed : Nat)
  | stopped
  | continued (st : CampaignSt) (sent : List (Nat × Nat))
deriving DecidableEq, Repr

/-- One invocation of `send_batch_emails` over `numRecipients` recipients and
`numDomains` domains.  In source order: the completion check
(`current_recipient_index >= len(all_emails)`); the connection test when
`current_domain_index == 0` (2 attempts, both failing deletes the session);
the send loop over `min(5, remaining)` domains for the *current recipient
only*; cursor update — `current_domain_index += domains_to_send`, and when
it reaches `len(domains)`, `current_recipient_index += 1` and
`current_domain_index = 0`.  No completion report is emitted in the same
invocation that finishes the last recipient (the `else: pass` branch at
lines 877–879); it happens at the start of the next invocation. -/
def send_batch_step (o : CampaignOracle) (numRecipients numDomains : Nat)
    (st : CampaignSt) : BatchStepResult :=
  if numRecipients ≤ st.recipientIndex then
    BatchStepResult.complete st.totalSuccessful st.totalFailed
  else if st.domainIndex = 0 ∧ o.connTestOk st.recipientIndex 0 = false ∧
      o.connTestOk st.recipientIndex 1 = false then
    BatchStepResult.stopped
  else if numDomains ≤ st.domainIndex + sliceSize numDomains st.domainIndex then
    BatchStepResult.continued
      ⟨st.recipientIndex + 1, 0,
       st.totalSuccessful + sliceSuccess o st.recipientIndex st.domainIndex (sliceSize numDomains st.domainIndex),
       st.totalFailed + (sliceSize numDomains st.domainIndex - sliceSuccess o st.recipientIndex st.domainIndex (sliceSize numDomains st.domainIndex))⟩
      (slicePairs st.recipientIndex st.domainIndex (sliceSize numDomains st.domainIndex))
  else
    BatchStepResult.continued
      ⟨st.recipientIndex, st.domainIndex + sliceSize numDomains st.domainIndex,
       st.totalSuccessful + sliceSuccess o st.recipientIndex st.domainIndex (sliceSize numDomains st.domainIndex),
       st.totalFailed + (sliceSize numDomains st.domainIndex - sliceSuccess o st.recipientIndex st.domainIndex (sliceSize numDomains st.domainIndex))⟩
      (slicePairs st.recipientIndex st.domainIndex (sliceSize numDomains st.domainIndex))

/-- A campaign session as seen across invocations: still active, completed
(final report shown, session deleted), or stopped. -/
inductive CampPhase where
  | active (st : CampaignSt)
  | completed (totalSuccessful totalFailed : Nat)
  | stoppedPhase
deriving DecidableEq, Repr

/-- Advance the campaign by one invocation of `send_batch_emails`
(the initial invocation from `handle_smtp_and_emails` or one CONTINUE
(`send_next_batch`) callback). -/
def campAdvance (o : CampaignOracle) (numRecipients numDomains : Nat) :
    CampPhase → CampPhase
  | CampPhase.active st =>
      match send_batch_step o numRecipients numDomains st with
      | BatchStepResult.complete a b => CampPhase.completed a b
      | BatchStepResult.stopped => CampPhase.stoppedPhase
      | BatchStepResult.continued st' _ => CampPhase.active st'
  | p => p

/-- The campaign phase after `k` invocations of `send_batch_emails`,
starting from the freshly initialised session. -/
def campRun (o : CampaignOracle) (numRecipients numDomains : Nat) : Nat → CampPhase
  | 0 => CampPhase.active ⟨0, 0, 0, 0⟩
  | k + 1 => campAdvance o numRecipients numDomains (campRun o numRecipients numDomains k)

/-- Environment in which every connection test and every send succeeds. -/
def allOkCampaign : CampaignOracle := ⟨fun _ _ => true, fun _ _ => true⟩

/-- Whether a campaign phase is the completed one. -/
def isCompletedPhase : CampPhase → Bool
  | CampPhase.completed _ _ => true
  | _ => false

/-! ## Domain store (`domain_manager.py`) -/

/-- One stored domain entry: `{"url": ..., "name": ...}`. -/
structure DomainEntry where
  url : String
  name : String
deriving DecidableEq, Repr

/-- The URL normalisation shared by `add_domain` and `add_bulk_domains`:
strip a leading `http://` (7 chars) or else `https://` (8 chars), then
`rstrip('/')`. -/
def normalizeUrl (u : String) : String :=
  pyRstripSlash
    (if pyStartsWith u "http://" then u.drop 7
     else if pyStartsWith u "https://" then u.drop 8
     else u)

/-- `DomainManager.add_domain(domain_url, domain_name)` (lines 54–74): if
the normalised URL is already stored, return `False` leaving the store
unchanged; otherwise append the entry (persistence, `_save_domains`, is
modelled as succeeding, so the call returns `True`). -/
def add_domain (domains : List DomainEntry) (domainUrl domainName : String) :
    Bool × List DomainEntry :=
  if domains.any (fun d => d.url == normalizeUrl domainUrl) then (false, domains)
  else (true, domains ++ [⟨normalizeUrl domainUrl, domainName⟩])

/-- `DomainManager.remove_domain(domain_url)` (lines 76–83): keep the
entries whose URL differs; return `True` iff the list shrank. -/
def remove_domain (domains : List DomainEntry) (domainUrl : String) :
    Bool × List DomainEntry :=
  ((domains.filter (fun d => !(d.url == domainUrl))).length < domains.length,
   domains.filter (fun d => !(d.url == domainUrl)))

/-- The result dict of `add_bulk_domains` (the `errors` list is never
appended to in the source). -/
structure BulkResult where
  success : Bool
  added : List String
  skipped : List String
  errors : List String
deriving DecidableEq, Repr

/-- One iteration of the `for line in lines` loop of `add_bulk_domains`
(lines 104–134) over the accumulator (store, added, skipped): comment lines
are skipped; the normalised URL is checked against the *current* store (so
duplicates within one bulk text are also skipped); new entries use the
titled URL as display name. -/
def bulk_step (acc : List DomainEntry × List String × List String) (line : String) :
    List DomainEntry × List String × List String :=
  if pyStartsWith line "#" then acc
  else if acc.1.any (fun d => d.url == normalizeUrl line) then
    (acc.1, acc.2.1, acc.2.2 ++ [normalizeUrl line])
  else
    (acc.1 ++ [⟨normalizeUrl line, pyTitle (normalizeUrl line)⟩],
     acc.2.1 ++ [normalizeUrl line], acc.2.2)

/-- `DomainManager.add_bulk_domains(domain_list)` (lines 96–159): split the
stripped text on newlines, strip each line and drop the empty ones, then
fold `bulk_step`; `_save_domains` is modelled as succeeding, so `success`
is `True` and `added`/`skipped` are reported as accumulated. -/
def add_bulk_domains (domains : List DomainEntry) (txt : String) :
    BulkResult × List DomainEntry :=
  match ((((pyStrip txt).data.splitOn '\n').map
      (fun l => pyStrip ⟨l⟩)).filter (fun l => !(l == ""))).foldl bulk_step
      (domains, [], []) with
  | (ds, added, skipped) => (⟨true, added, skipped, []⟩, ds)

/-! ## Validators (`validators.py`, second definitions — lines 210–253) -/

/-- Characters of the local-part class `[a-zA-Z0-9._%+-]`. -/
def isLocalChar (c : Char) : Bool :=
  c.isAlphanum || c = '.' || c = '_' || c = '%' || c = '+' || c = '-'

/-- Characters of the domain class `[a-zA-Z0-9.-]`. -/
def isDomainChar (c : Char) : Bool :=
  c.isAlphanum || c = '.' || c = '-'

/-- The part of the pattern after `@`: `[a-zA-Z0-9.-]+\.[a-zA-Z]{2,}$`.
Because the trailing `[a-zA-Z]{2,}` admits no dot and runs to the end, the
separating dot is necessarily the last dot: the suffix after the last dot
must be at least 2 letters and the prefix before it must be a nonempty run
of domain-class characters. -/
def matchDomainPart (dom : List Char) : Bool :=
  dom.all isDomainChar &&
    ((dom.reverse.takeWhile (fun c => !(c = '.'))).length ≥ 2 &&
     (dom.reverse.takeWhile (fun c => !(c = '.'))).all Char.isAlpha &&
     (dom.reverse.dropWhile (fun c => !(c = '.'))).length ≥ 2)

/-- `validate_email(email)` (validators.py lines 210–213, the definition
that shadows the earlier one): `re.match(r'^[a-zA-Z0-9._%+-]+@[a-zA-Z0-9.-]+\.[a-zA-Z]{2,}$', email.strip()) is not None`.
Since `@` belongs to no character class the address must contain exactly
one `@`; the stripped input removes all surrounding whitespace, so the `$`
anchor's allowance for one trailing newline can never apply. -/
def validate_email (email : String) : Bool :=
  match (pyStrip email).data.splitOn '@' with
  | [loc, dom] => !loc.isEmpty && loc.all isLocalChar && matchDomainPart dom
  | _ => false

/-- The result dict of `validate_email_list`. -/
structure EmailListResult where
  valid : Bool
  error : Option String
  valid_count : Nat
  invalid_count : Nat
  valid_emails : List String
  invalid_emails : List String
deriving DecidableEq, Repr

/-- `validate_email_list(emails)` (validators.py lines 215–253, the
definition that shadows the earlier one): empty input and inputs of more
than 100 addresses are rejected wholesale; otherwise each address is
classified by `validate_email` in order. -/
def validate_email_list (emails : List String) : EmailListResult :=
  if emails.isEmpty then
    ⟨false, some "No email addresses provided", 0, 0, [], []⟩
  else if 100 < emails.length then
    ⟨false, some "Too many email addresses. Maximum 100 emails allowed per test.",
     0, emails.length, [], emails⟩
  else
    ⟨!(emails.filter validate_email).isEmpty,
     if !(emails.filter validate_email).isEmpty then none
     else some "No valid email addresses found",
     (emails.filter validate_email).length,
     (emails.filter (fun e => !validate_email e)).length,
     emails.filter validate_email,
     emails.filter (fun e => !validate_email e)⟩

/-! ## Concrete environments for witnesses and counterexamples -/

/-- Environment in which every operation succeeds except that the second
transmission attempt is refused by the server. -/
def refuseSecondOracle : SmtpOracle :=
  ⟨fun _ => none,
   fun n => if n = 0 then none else some PyExn.smtpRecipientsRefused,
   fun _ => false, fun _ => 0, fun _ => "2024-01-01 00:00:00"⟩

/-- Environment in which every connection attempt raises. -/
def connFailOracle : SmtpOracle :=
  ⟨fun _ => some PyExn.otherExn, fun _ => none, fun _ => false,
   fun _ => 0, fun _ => "2024-01-01 00:00:00"⟩

/-- Environment in which the server refuses the first transmission attempt
and accepts everything else. -/
def refuseFirstOracle : SmtpOracle :=
  ⟨fun _ => none,
   fun n => if n = 0 then some PyExn.smtpRecipientsRefused else none,
   fun _ => false, fun _ => 0, fun _ => "2024-01-01 00:00:00"⟩

/-- Environment in which the server drops the connection on the first
transmission attempt and the retried transmission fails with a generic
error. -/
def disconnectOracle : SmtpOracle :=
  ⟨fun _ => none,
   fun n => if n = 0 then some PyExn.smtpDisconnected else some PyExn.otherExn,
   fun _ => false, fun _ => 0, fun _ => "2024-01-01 00:00:00"⟩

/-- Environment in which the server drops the connection on the first
transmission attempt and the retried transmission succeeds. -/
def retryOkOracle : SmtpOracle :=
  ⟨fun _ => none,
   fun n => if n = 0 then some PyExn.smtpDisconnected else none,
   fun _ => false, fun _ => 0, fun _ => "2024-01-01 00:00:00"⟩

/-! ## Dictionary and accounting lemmas -/

theorem keys_overwrite (m : List (String × String)) (k v : String) :
    (m.map (fun p => if p.1 == k then (k, v) else p)).map Prod.fst = m.map Prod.fst := by
  induction m with
  | nil => rfl
  | cons p ps ih =>
    simp only [List.map_cons, ih]
    congr 1
    by_cases h : p.1 == k
    · rw [if_pos h, beq_iff_eq.mp h]
    · rw [if_neg h]

theorem mem_keys_dictInsert (m : List (String × String)) (k v a : String) :
    a ∈ dictKeys (dictInsert m k v) ↔ a = k ∨ a ∈ dictKeys m := by
  unfold dictInsert dictKeys
  split
  · rename_i h
    rw [keys_overwrite]
    rcases List.any_eq_true.mp h with ⟨p, hp, he⟩
    have hk : k ∈ m.map Prod.fst := by
      rw [beq_iff_eq] at he
      exact he ▸ List.mem_map_of_mem Prod.fst hp
    constructor
    · intro hA
      exact Or.inr hA
    · rintro (rfl | hA)
      · exact hk
      · exact hA
  · simp only [List.map_append, List.map_cons, List.map_nil, List.mem_append,
      List.mem_singleton]
    tauto

/-- A recipient is accounted for in a batch state when it appears in
`successful` or among the keys of `failed`. -/
def accounted (s : BatchSt) (a : String) : Prop :=
  a ∈ s.successful ∨ a ∈ dictKeys s.failed

instance (s : BatchSt) (a : String) : Decidable (accounted s a) := by
  unfold accounted
  infer_instance

/-- Every branch of the inner send loop records `e` exactly once: either
`failed` gains key `e` with `successful` unchanged, or `successful` gains
`e` with `failed` unchanged. -/
theorem send_attempt_loop_account (o : SmtpOracle) (e : String) (msg : TestMessage)
    (s : BatchSt) :
    ((send_attempt_loop o e msg s).successful = s.successful ∧
      ∃ v, (send_attempt_loop o e msg s).failed = dictInsert s.failed e v)
  ∨ ((send_attempt_loop o e msg s).successful = s.successful ++ [e] ∧
      (send_attempt_loop o e msg s).failed = s.failed) := by
  unfold send_attempt_loop
  split
  · exact Or.inr ⟨rfl, rfl⟩
  · exact Or.inl ⟨rfl, _, rfl⟩
  · split
    · exact Or.inl ⟨rfl, _, rfl⟩
    · split
      · exact Or.inr ⟨rfl, rfl⟩
      · exact Or.inl ⟨rfl, _, rfl⟩
      · exact Or.inl ⟨rfl, _, rfl⟩
      · exact Or.inl ⟨rfl, _, rfl⟩
  · exact Or.inl ⟨rfl, _, rfl⟩

/-- Every branch of the per-recipient step records `e` exactly once. -/
theorem process_email_account (o : SmtpOracle) (fromEmail customDomain e : String)
    (isLast : Bool) (s : BatchSt) :
    ((process_email o fromEmail customDomain e isLast s).successful = s.successful ∧
      ∃ v, (process_email o fromEmail customDomain e isLast s).failed = dictInsert s.failed e v)
  ∨ ((process_email o fromEmail customDomain e isLast s).successful = s.successful ++ [e] ∧
      (process_email o fromEmail customDomain e isLast s).failed = s.failed) := by
  unfold process_email
  split
  · split
    · exact Or.inl ⟨rfl, _, rfl⟩
    · split
      · exact Or.inl ⟨rfl, _, rfl⟩
      · exact send_attempt_loop_account o e _ _
  · exact send_attempt_loop_account o e _ _

/-- Membership form of the per-recipient accounting. -/
theorem accounted_process_email (o : SmtpOracle) (fromEmail customDomain e : String)
    (isLast : Bool) (s : BatchSt) (a : String) :
    accounted (process_email o fromEmail customDomain e isLast s) a ↔
      a = e ∨ accounted s a := by
  unfold accounted
  rcases process_email_account o fromEmail customDomain e isLast s with
    ⟨h1, v, h2⟩ | ⟨h1, h2⟩
  · rw [h1, h2, mem_keys_dictInsert]
    tauto
  · rw [h1, h2, List.mem_append, List.mem_singleton]
    tauto

/-- The per-recipient step keeps `successful` and the keys of `failed`
disjoint, provided the processed recipient is not yet accounted for. -/
theorem disjoint_process_email (o : SmtpOracle) (fromEmail customDomain e : String)
    (isLast : Bool) (s : BatchSt)
    (hd : ∀ a, ¬(a ∈ s.successful ∧ a ∈ dictKeys s.failed))
    (he : ¬ accounted s e) :
    ∀ a, ¬(a ∈ (process_email o fromEmail customDomain e isLast s).successful ∧
            a ∈ dictKeys (process_email o fromEmail customDomain e isLast s).failed) := by
  intro a
  rcases process_email_account o fromEmail customDomain e isLast s with
    ⟨h1, v, h2⟩ | ⟨h1, h2⟩
  · rw [h1, h2]
    rintro ⟨ha, hk⟩
    rcases (mem_keys_dictInsert s.failed e v a).mp hk with rfl | hk'
    · exact he (Or.inl ha)
    · exact hd a ⟨ha, hk'⟩
  · rw [h1, h2]
    rintro ⟨ha, hk⟩
    rcases List.mem_append.mp ha with ha' | ha'
    · exact hd a ⟨ha', hk⟩
    · rw [List.mem_singleton] at ha'
      exact he (Or.inr (ha' ▸ hk))

/-- Accounting across the whole recipient loop. -/
theorem accounted_process_emails (o : SmtpOracle) (fromEmail customDomain : String) :
    ∀ (l : List String) (s : BatchSt) (a : String),
      accounted (process_emails o fromEmail customDomain l s) a ↔
        a ∈ l ∨ accounted s a := by
  intro l
  induction l with
  | nil =>
    intro s a
    simp [process_emails]
  | cons e rest ih =>
    intro s a
    unfold process_emails
    rw [ih, accounted_process_email]
    simp only [List.mem_cons]
    tauto

/-- Disjointness across the whole recipient loop, for a duplicate-free
suffix of recipients none of which is yet accounted for. -/
theorem disjoint_process_emails (o : SmtpOracle) (fromEmail customDomain : String) :
    ∀ (l : List String) (s : BatchSt), l.Nodup →
      (∀ x ∈ l, ¬ accounted s x) →
      (∀ a, ¬(a ∈ s.successful ∧ a ∈ dictKeys s.failed)) →
      ∀ a, ¬(a ∈ (process_emails o fromEmail customDomain l s).successful ∧
              a ∈ dictKeys (process_emails o fromEmail customDomain l s).failed) := by
  intro l
  induction l with
  | nil =>
    intro s _ _ hd a
    exact hd a
  | cons e rest ih =>
    intro s hn hf hd a
    unfold process_emails
    refine ih _ (List.nodup_cons.mp hn).2 ?_ ?_ a
    · intro x hx
      rw [accounted_process_email]
      rintro (rfl | hacc)
      · exact (List.nodup_cons.mp hn).1 hx
      · exact hf x (List.mem_cons_of_mem e hx) hacc
    · exact disjoint_process_email o fromEmail customDomain e rest.isEmpty s hd
        (hf e (List.mem_cons_self e rest))

/-! ## Lemmas on the batch-level failure fill -/

theorem mem_keys_fill (msucc : List String) :
    ∀ (l : List String) (m : List (String × String)) (a : String),
      a ∈ dictKeys (fill_all_failed msucc m l) ↔
        a ∈ dictKeys m ∨ (a ∈ l ∧ a ∉ msucc) := by
  intro l
  induction l with
  | nil =>
    intro m a
    simp [fill_all_failed]
  | cons e rest ih =>
    intro m a
    unfold fill_all_failed
    split
    · rename_i h
      rw [ih]
      rcases h with hsucc | hkey
      · constructor
        · rintro (hm | hrest)
          · exact Or.inl hm
          · exact Or.inr ⟨List.mem_cons_of_mem e hrest.1, hrest.2⟩
        · rintro (hm | ⟨hmem, hns⟩)
          · exact Or.inl hm
          · rcases List.mem_cons.mp hmem with rfl | hrest
            · exact absurd hsucc hns
            · exact Or.inr ⟨hrest, hns⟩
      · constructor
        · rintro (hm | hrest)
          · exact Or.inl hm
          · exact Or.inr ⟨List.mem_cons_of_mem e hrest.1, hrest.2⟩
        · rintro (hm | ⟨hmem, hns⟩)
          · exact Or.inl hm
          · rcases List.mem_cons.mp hmem with rfl | hrest
            · exact Or.inl hkey
            · exact Or.inr ⟨hrest, hns⟩
    · rename_i h
      push_neg at h
      rw [ih]
      unfold dictKeys
      simp only [List.map_append, List.map_cons, List.map_nil, List.mem_append,
        List.mem_singleton, List.mem_cons, List.not_mem_nil, or_false]
      constructor
      · rintro ((hm | rfl) | ⟨hrest, hns⟩)
        · exact Or.inl hm
        · exact Or.inr ⟨Or.inl rfl, h.1⟩
        · exact Or.inr ⟨Or.inr hrest, hns⟩
      · rintro (hm | ⟨rfl | hrest, hns⟩)
        · exact Or.inl (Or.inl hm)
        · exact Or.inl (Or.inr rfl)
        · exact Or.inr ⟨hrest, hns⟩

theorem fill_values (msucc : List String) :
    ∀ (l : List String) (m : List (String × String)),
      (∀ p ∈ m, p.2 = "SMTP connection error") →
      ∀ p ∈ fill_all_failed msucc m l, p.2 = "SMTP connection error" := by
  intro l
  induction l with
  | nil =>
    intro m hm
    exact hm
  | cons e rest ih =>
    intro m hm
    unfold fill_all_failed
    split
    · exact ih m hm
    · refine ih _ ?_
      intro p hp
      rcases List.mem_append.mp hp with hp' | hp'
      · exact hm p hp'
      · rw [List.mem_singleton] at hp'
        rw [hp']

/-! ## Claim C1 — result partitions the recipient list -/

/-- Claim C1 (counterexample): as stated — over *every* recipient list
passed to the batch send — the partition property is false.  The engine
receives the list verbatim (`main.py` builds it by comma/newline splitting
with no deduplication), and for the duplicate list
`["a@b.co", "a@b.co"]` in an environment whose server accepts the first
transmission and refuses the second, the address ends up in `successful`
*and* among the keys of `failed`. -/
theorem send_batch_partition_cex :
    "a@b.co" ∈ (send_emails_sync refuseSecondOracle "s@x.co" "d.co"
        ["a@b.co", "a@b.co"]).successful
  ∧ "a@b.co" ∈ dictKeys (send_emails_sync refuseSecondOracle "s@x.co" "d.co"
        ["a@b.co", "a@b.co"]).failed := by
  decide

/-- Claim C1 (amended): for every *duplicate-free* recipient list R and
every SMTP environment, `_send_emails_sync` partitions R exactly — an
address is in `successful` or a key of `failed` iff it is in R, and never
in both. -/
theorem send_batch_partition (o : SmtpOracle) (fromEmail customDomain : String)
    (R : List String) (hnd : R.Nodup) :
    (∀ a, (a ∈ (send_emails_sync o fromEmail customDomain R).successful ∨
           a ∈ dictKeys (send_emails_sync o fromEmail customDomain R).failed) ↔ a ∈ R)
  ∧ (∀ a, ¬(a ∈ (send_emails_sync o fromEmail customDomain R).successful ∧
            a ∈ dictKeys (send_emails_sync o fromEmail customDomain R).failed)) := by
  rcases h : establish_connection o 0 with ⟨oe, c⟩
  rcases oe with _ | e
  · unfold send_emails_sync
    rw [h]
    constructor
    · intro a
      have hm := accounted_process_emails o fromEmail customDomain R (initialBatchSt c) a
      simp only [accounted, initialBatchSt, dictKeys, List.map_nil,
        List.not_mem_nil, or_false] at hm
      exact hm
    · refine disjoint_process_emails o fromEmail customDomain R (initialBatchSt c) hnd ?_ ?_
      · intro x hx
        simp [accounted, initialBatchSt, dictKeys]
      · intro a
        simp [initialBatchSt, dictKeys]
  · unfold send_emails_sync
    rw [h]
    constructor
    · intro a
      show (a ∈ (initialBatchSt c).successful ∨
            a ∈ dictKeys (fill_all_failed [] [] R)) ↔ a ∈ R
      rw [mem_keys_fill]
      simp [initialBatchSt, dictKeys]
    · intro a
      rintro ⟨ha, _⟩
      simp [initialBatchSt] at ha

/-- Witness for `send_batch_partition` at a concrete duplicate-free list
and environment. -/
theorem send_batch_partition_witness :
    (["a@b.co", "c@d.co"] : List String).Nodup
  ∧ ((∀ a, (a ∈ (send_emails_sync refuseSecondOracle "s@x.co" "d.co"
             ["a@b.co", "c@d.co"]).successful ∨
           a ∈ dictKeys (send_emails_sync refuseSecondOracle "s@x.co" "d.co"
             ["a@b.co", "c@d.co"]).failed) ↔ a ∈ ["a@b.co", "c@d.co"])
     ∧ (∀ a, ¬(a ∈ (send_emails_sync refuseSecondOracle "s@x.co" "d.co"
               ["a@b.co", "c@d.co"]).successful ∧
              a ∈ dictKeys (send_emails_sync refuseSecondOracle "s@x.co" "d.co"
               ["a@b.co", "c@d.co"]).failed))) :=
  ⟨by decide,
   send_batch_partition refuseSecondOracle "s@x.co" "d.co" ["a@b.co", "c@d.co"] (by decide)⟩

/-! ## Claim C3 — double connection failure fails the whole batch upfront -/

/-- Claim C3: if both outer connection attempts of the initial
`establish_connection()` raise, `_send_emails_sync` returns an empty
`successful` list, records every recipient of the input list in `failed`
with the connection-error reason, and attempts no message transmission
(empty transmission log, no send outcome consumed). -/
theorem send_batch_conn_failure (o : SmtpOracle) (fromEmail customDomain : String)
    (R : List String)
    (h0 : o.connOutcome 0 ≠ none) (h1 : o.connOutcome 1 ≠ none) :
    (send_emails_sync o fromEmail customDomain R).successful = []
  ∧ (send_emails_sync o fromEmail customDomain R).log = []
  ∧ (send_emails_sync o fromEmail customDomain R).sendCount = 0
  ∧ (∀ a, a ∈ dictKeys (send_emails_sync o fromEmail customDomain R).failed ↔ a ∈ R)
  ∧ (∀ p ∈ (send_emails_sync o fromEmail customDomain R).failed,
       p.2 = "SMTP connection error") := by
  rcases Option.ne_none_iff_exists'.mp h0 with ⟨e0, he0⟩
  rcases Option.ne_none_iff_exists'.mp h1 with ⟨e1, he1⟩
  have hest : establish_connection o 0 = (some e1, 2) := by
    unfold establish_connection
    rw [he0, he1]
  unfold send_emails_sync
  rw [hest]
  refine ⟨rfl, rfl, rfl, ?_, ?_⟩
  · intro a
    show a ∈ dictKeys (fill_all_failed [] [] R) ↔ a ∈ R
    rw [mem_keys_fill]
    simp [dictKeys]
  · intro p hp
    refine fill_values [] R [] ?_ p hp
    intro q hq
    cases hq

/-- Witness for `send_batch_conn_failure` in the environment where every
connection attempt raises. -/
theorem send_batch_conn_failure_witness :
    connFailOracle.connOutcome 0 ≠ none
  ∧ connFailOracle.connOutcome 1 ≠ none
  ∧ ((send_emails_sync connFailOracle "s@x.co" "d.co" ["a@b.co", "c@d.co"]).successful = []
     ∧ (send_emails_sync connFailOracle "s@x.co" "d.co" ["a@b.co", "c@d.co"]).log = []
     ∧ (send_emails_sync connFailOracle "s@x.co" "d.co" ["a@b.co", "c@d.co"]).sendCount = 0
     ∧ (∀ a, a ∈ dictKeys (send_emails_sync connFailOracle "s@x.co" "d.co"
          ["a@b.co", "c@d.co"]).failed ↔ a ∈ ["a@b.co", "c@d.co"])
     ∧ (∀ p ∈ (send_emails_sync connFailOracle "s@x.co" "d.co"
          ["a@b.co", "c@d.co"]).failed, p.2 = "SMTP connection error")) :=
  ⟨by decide, by decide,
   send_batch_conn_failure connFailOracle "s@x.co" "d.co" ["a@b.co", "c@d.co"]
     (by decide) (by decide)⟩

/-! ## Claim C5 — no exception escapes; every failure lands in the result -/

/-- Claim C5: `_send_emails_sync` is a total function into its result
structure (the embedding's branch structure mirrors the source's handlers:
each per-recipient handler and the batch-level handler catch every
modelled exception), and under *every* SMTP environment — arbitrary
connection failures, per-recipient send failures, quit failures — every
recipient of the input list is captured in `successful` or in `failed`; in
particular no per-recipient failure aborts the accounting of the
recipients after it. -/
theorem send_batch_never_raises (o : SmtpOracle) (fromEmail customDomain : String)
    (R : List String) :
    ∀ e ∈ R, e ∈ (send_emails_sync o fromEmail customDomain R).successful ∨
      e ∈ dictKeys (send_emails_sync o fromEmail customDomain R).failed := by
  intro e he
  rcases h : establish_connection o 0 with ⟨oe, c⟩
  rcases oe with _ | ex
  · unfold send_emails_sync
    rw [h]
    have hm := accounted_process_emails o fromEmail customDomain R (initialBatchSt c) e
    simp only [accounted, initialBatchSt, dictKeys, List.map_nil,
      List.not_mem_nil, or_false] at hm
    exact hm.mpr he
  · unfold send_emails_sync
    rw [h]
    refine Or.inr ?_
    show e ∈ dictKeys (fill_all_failed [] [] R)
    rw [mem_keys_fill]
    simp [dictKeys]
    exact he

/-- Witness for `send_batch_never_raises` in an environment that drops the
connection mid-send and fails the retry. -/
theorem send_batch_never_raises_witness :
    "a@b.co" ∈ (["a@b.co", "c@d.co"] : List String)
  ∧ ("a@b.co" ∈ (send_emails_sync disconnectOracle "s@x.co" "d.co"
        ["a@b.co", "c@d.co"]).successful ∨
     "a@b.co" ∈ dictKeys (send_emails_sync disconnectOracle "s@x.co" "d.co"
        ["a@b.co", "c@d.co"]).failed) :=
  ⟨by decide,
   send_batch_never_raises disconnectOracle "s@x.co" "d.co" ["a@b.co", "c@d.co"]
     "a@b.co" (by decide)⟩

/-! ## Branch lemmas for the inner send loop -/

theorem send_attempt_loop_refused (o : SmtpOracle) (e : String) (msg : TestMessage)
    (s : BatchSt)
    (hs : o.sendOutcome s.sendCount = some PyExn.smtpRecipientsRefused) :
    send_attempt_loop o e msg s =
      { s with sendCount := s.sendCount + 1, log := s.log ++ [msg],
               failed := dictInsert s.failed e "Recipient refused" } := by
  unfold send_attempt_loop
  rw [hs]

theorem send_attempt_loop_disc_fail (o : SmtpOracle) (e : String) (msg : TestMessage)
    (s : BatchSt) (ex : PyExn)
    (h1 : o.sendOutcome s.sendCount = some PyExn.smtpDisconnected)
    (hc : (establish_connection o s.connCount).1 = none)
    (h2 : o.sendOutcome (s.sendCount + 1) = some ex) :
    (send_attempt_loop o e msg s).estCount = s.estCount + 1
  ∧ (send_attempt_loop o e msg s).sendCount = s.sendCount + 2
  ∧ (send_attempt_loop o e msg s).successful = s.successful
  ∧ (send_attempt_loop o e msg s).log = s.log ++ [msg, msg]
  ∧ ∃ v, (send_attempt_loop o e msg s).failed = dictInsert s.failed e v := by
  unfold send_attempt_loop
  rw [h1]
  rcases hec : establish_connection o s.connCount with ⟨oe, c⟩
  rw [hec] at hc
  cases oe with
  | some e' => simp at hc
  | none =>
    rw [h2]
    cases ex
    · exact ⟨rfl, rfl, rfl, rfl, _, rfl⟩
    · exact ⟨rfl, rfl, rfl, rfl, _, rfl⟩
    · exact ⟨rfl, rfl, rfl, rfl, _, rfl⟩

theorem send_attempt_loop_disc_retry_ok (o : SmtpOracle) (e : String) (msg : TestMessage)
    (s : BatchSt)
    (h1 : o.sendOutcome s.sendCount = some PyExn.smtpDisconnected)
    (hc : (establish_connection o s.connCount).1 = none)
    (h2 : o.sendOutcome (s.sendCount + 1) = none) :
    send_attempt_loop o e msg s =
      { s with sendCount := s.sendCount + 2, log := s.log ++ [msg, msg],
               estCount := s.estCount + 1,
               connCount := (establish_connection o s.connCount).2,
               age := 1, successful := s.successful ++ [e] } := by
  unfold send_attempt_loop
  rw [h1]
  rcases hec : establish_connection o s.connCount with ⟨oe, c⟩
  rw [hec] at hc
  cases oe with
  | some e' => simp at hc
  | none =>
    rw [h2]

/-! ## Claim C4 — rejection never reconnects; disconnect retries exactly once -/

/-- Claim C4: with no connection refresh pending (`connection_age < 10`), a
`SMTPRecipientsRefused` failure records the recipient in `failed`
immediately — the full-state equality shows `estCount` (number of
`establish_connection` calls) unchanged and exactly one transmission
consumed — while a disconnect-class failure triggers exactly one
reconnect (`estCount + 1`) and exactly one retried transmission
(`sendCount + 2`); when that single retry also fails (with any exception
`ex`) the recipient is recorded in `failed` and `successful` is untouched,
the loop then moving on to the next recipient. -/
theorem send_failure_retry_policy (o : SmtpOracle) (fromEmail customDomain e : String)
    (isLast : Bool) (s : BatchSt) (hage : s.age < 10) :
    (o.sendOutcome s.sendCount = some PyExn.smtpRecipientsRefused →
       process_email o fromEmail customDomain e isLast s =
         { s with composeCount := s.composeCount + 1,
                  sendCount := s.sendCount + 1,
                  log := s.log ++ [create_test_message fromEmail customDomain e
                          (o.randEntropy s.composeCount) (o.nowFmt s.composeCount)],
                  failed := dictInsert s.failed e "Recipient refused" })
  ∧ (∀ ex : PyExn, o.sendOutcome s.sendCount = some PyExn.smtpDisconnected →
       (establish_connection o s.connCount).1 = none →
       o.sendOutcome (s.sendCount + 1) = some ex →
       (process_email o fromEmail customDomain e isLast s).estCount = s.estCount + 1
     ∧ (process_email o fromEmail customDomain e isLast s).sendCount = s.sendCount + 2
     ∧ (process_email o fromEmail customDomain e isLast s).successful = s.successful
     ∧ ∃ v, (process_email o fromEmail customDomain e isLast s).failed =
         dictInsert s.failed e v) := by
  have hcond : ¬(10 ≤ s.age ∧ isLast = false) := by
    rintro ⟨h10, _⟩
    omega
  constructor
  · intro hs
    unfold process_email
    rw [if_neg hcond]
    exact send_attempt_loop_refused o e _ _ hs
  · intro ex h1 hc h2
    unfold process_email
    rw [if_neg hcond]
    obtain ⟨ha, hb, hs', hl, hf⟩ := send_attempt_loop_disc_fail o e
      (create_test_message fromEmail customDomain e
        (o.randEntropy s.composeCount) (o.nowFmt s.composeCount))
      { s with composeCount := s.composeCount + 1 } ex h1 hc h2
    exact ⟨ha, hb, hs', hf⟩

/-- Witness for `send_failure_retry_policy`: the rejection half in the
environment refusing the first transmission, the disconnect half in the
environment dropping the connection and failing the retry. -/
theorem send_failure_retry_policy_witness :
    ((initialBatchSt 1).age < 10
     ∧ refuseFirstOracle.sendOutcome (initialBatchSt 1).sendCount =
         some PyExn.smtpRecipientsRefused
     ∧ process_email refuseFirstOracle "s@x.co" "d.co" "a@b.co" false (initialBatchSt 1) =
         { initialBatchSt 1 with
             composeCount := (initialBatchSt 1).composeCount + 1,
             sendCount := (initialBatchSt 1).sendCount + 1,
             log := (initialBatchSt 1).log ++ [create_test_message "s@x.co" "d.co" "a@b.co"
                     (refuseFirstOracle.randEntropy (initialBatchSt 1).composeCount)
                     (refuseFirstOracle.nowFmt (initialBatchSt 1).composeCount)],
             failed := dictInsert (initialBatchSt 1).failed "a@b.co" "Recipient refused" })
  ∧ ((initialBatchSt 1).age < 10
     ∧ disconnectOracle.sendOutcome (initialBatchSt 1).sendCount =
         some PyExn.smtpDisconnected
     ∧ (establish_connection disconnectOracle (initialBatchSt 1).connCount).1 = none
     ∧ disconnectOracle.sendOutcome ((initialBatchSt 1).sendCount + 1) = some PyExn.otherExn
     ∧ ((process_email disconnectOracle "s@x.co" "d.co" "a@b.co" false
           (initialBatchSt 1)).estCount = (initialBatchSt 1).estCount + 1
        ∧ (process_email disconnectOracle "s@x.co" "d.co" "a@b.co" false
             (initialBatchSt 1)).sendCount = (initialBatchSt 1).sendCount + 2
        ∧ (process_email disconnectOracle "s@x.co" "d.co" "a@b.co" false
             (initialBatchSt 1)).successful = (initialBatchSt 1).successful
        ∧ ∃ v, (process_email disconnectOracle "s@x.co" "d.co" "a@b.co" false
             (initialBatchSt 1)).failed = dictInsert (initialBatchSt 1).failed "a@b.co" v)) :=
  ⟨⟨by decide, by decide,
    (send_failure_retry_policy refuseFirstOracle "s@x.co" "d.co" "a@b.co" false
      (initialBatchSt 1) (by decide)).1 (by decide)⟩,
   ⟨by decide, by decide, by decide, by decide,
    (send_failure_retry_policy disconnectOracle "s@x.co" "d.co" "a@b.co" false
      (initialBatchSt 1) (by decide)).2 PyExn.otherExn (by decide) (by decide) (by decide)⟩⟩

/-! ## Claim C7 — timestamp fixed at composition time -/

theorem htmlContent_timestamp (domain btn ts : String) :
    ∃ pre post, htmlContent domain btn ts = pre ++ ("Timestamp: " ++ ts) ++ post := by
  refine ⟨"\n" ++
    ("<a href=\"https://" ++ domain ++ "\" target=\"_blank\" style=\"" ++ linkStyle ++ "\">" ++ btn ++ "</a>") ++
    ("\n        <p style=\"font-size: 14px; color: #6c757d;\">\n            • URL: " ++
      ("https://" ++ domain) ++ "<br>\n        </p> <p>"), "</p>\n        ", ?_⟩
  simp only [htmlContent, String.append_assoc]

/-- Claim C7: the message transmitted for a recipient embeds the
human-readable timestamp string obtained at composition time (clock reading
`composeCount`, taken before the first transmission attempt, rendered as
the `%Y-%m-%d %H:%M:%S` reading followed by the literal `" UTC"` of the
`strftime` format).  When the first transmission drops the connection and
the retry succeeds, both transmission-log entries are the *same* composed
message — the retry does not recompose, so it carries the original
composition-time timestamp, and only one clock reading is consumed
(`composeCount` advances by exactly one). -/
theorem message_timestamp_at_composition (o : SmtpOracle)
    (fromEmail customDomain e : String) (isLast : Bool) (s : BatchSt)
    (hage : s.age < 10)
    (h1 : o.sendOutcome s.sendCount = some PyExn.smtpDisconnected)
    (hc : (establish_connection o s.connCount).1 = none)
    (h2 : o.sendOutcome (s.sendCount + 1) = none) :
    (process_email o fromEmail customDomain e isLast s).log =
      s.log ++ [create_test_message fromEmail customDomain e
                  (o.randEntropy s.composeCount) (o.nowFmt s.composeCount),
                create_test_message fromEmail customDomain e
                  (o.randEntropy s.composeCount) (o.nowFmt s.composeCount)]
  ∧ (process_email o fromEmail customDomain e isLast s).composeCount = s.composeCount + 1
  ∧ ∃ pre post,
      (create_test_message fromEmail customDomain e
        (o.randEntropy s.composeCount) (o.nowFmt s.composeCount)).htmlBody =
        pre ++ ("Timestamp: " ++ (o.nowFmt s.composeCount ++ " UTC")) ++ post := by
  have hcond : ¬(10 ≤ s.age ∧ isLast = false) := by
    rintro ⟨h10, _⟩
    omega
  have hloop := send_attempt_loop_disc_retry_ok o e
    (create_test_message fromEmail customDomain e
      (o.randEntropy s.composeCount) (o.nowFmt s.composeCount))
    { s with composeCount := s.composeCount + 1 } h1 hc h2
  refine ⟨?_, ?_, ?_⟩
  · unfold process_email
    rw [if_neg hcond, hloop]
  · unfold process_email
    rw [if_neg hcond, hloop]
  · exact htmlContent_timestamp customDomain _ _

/-- Witness for `message_timestamp_at_composition`: first transmission
drops the connection, the retried one succeeds. -/
theorem message_timestamp_at_composition_witness :
    ((initialBatchSt 1).age < 10
     ∧ retryOkOracle.sendOutcome (initialBatchSt 1).sendCount = some PyExn.smtpDisconnected
     ∧ (establish_connection retryOkOracle (initialBatchSt 1).connCount).1 = none
     ∧ retryOkOracle.sendOutcome ((initialBatchSt 1).sendCount + 1) = none)
  ∧ ((process_email retryOkOracle "s@x.co" "d.co" "a@b.co" false (initialBatchSt 1)).log =
       (initialBatchSt 1).log ++ [create_test_message "s@x.co" "d.co" "a@b.co"
           (retryOkOracle.randEntropy (initialBatchSt 1).composeCount)
           (retryOkOracle.nowFmt (initialBatchSt 1).composeCount),
         create_test_message "s@x.co" "d.co" "a@b.co"
           (retryOkOracle.randEntropy (initialBatchSt 1).composeCount)
           (retryOkOracle.nowFmt (initialBatchSt 1).composeCount)]
     ∧ (process_email retryOkOracle "s@x.co" "d.co" "a@b.co" false
          (initialBatchSt 1)).composeCount = (initialBatchSt 1).composeCount + 1
     ∧ ∃ pre post,
         (create_test_message "s@x.co" "d.co" "a@b.co"
           (retryOkOracle.randEntropy (initialBatchSt 1).composeCount)
           (retryOkOracle.nowFmt (initialBatchSt 1).composeCount)).htmlBody =
           pre ++ ("Timestamp: " ++ (retryOkOracle.nowFmt (initialBatchSt 1).composeCount ++ " UTC")) ++ post) :=
  ⟨⟨by decide, by decide, by decide, by decide⟩,
   message_timestamp_at_composition retryOkOracle "s@x.co" "d.co" "a@b.co" false
     (initialBatchSt 1) (by decide) (by decide) (by decide) (by decide)⟩

/-! ## Claim C8 — both bodies reference the same domain and token -/

/-- Claim C8: for every recipient, domain, entropy and clock reading, the
composed message's HTML body embeds `https://{domain}` as the href of the
anchor whose anchor text is the generated token, and the plain-text body
references the same domain (`Test Link: https://{domain}`) and the same
token (`Button Text: {token}`); the token — `random.randint(100000,
999999)` — always has exactly 6 decimal digits. -/
theorem compose_message_references (fromEmail customDomain recipient : String)
    (entropy : Nat) (nowStr : String) :
    (Nat.digits 10 (randint 100000 999999 entropy)).length = 6
  ∧ (∃ pre post,
      (create_test_message fromEmail customDomain recipient entropy nowStr).htmlBody =
        pre ++ ("<a href=\"https://" ++ customDomain ++ "\" target=\"_blank\" style=\"" ++
          linkStyle ++ "\">" ++ Nat.repr (randint 100000 999999 entropy) ++ "</a>") ++ post)
  ∧ (∃ pre post,
      (create_test_message fromEmail customDomain recipient entropy nowStr).textBody =
        pre ++ ("Test Link: https://" ++ customDomain) ++ post)
  ∧ (∃ pre post,
      (create_test_message fromEmail customDomain recipient entropy nowStr).textBody =
        pre ++ ("Button Text: " ++ Nat.repr (randint 100000 999999 entropy)) ++ post) := by
  refine ⟨?_, ?_, ?_, ?_⟩
  · have hlt : randint 100000 999999 entropy < 1000000 := by
      unfold randint
      have := Nat.mod_lt entropy (show 0 < 999999 - 100000 + 1 by norm_num)
      omega
    have hge : 100000 ≤ randint 100000 999999 entropy := Nat.le_add_right _ _
    have hne : randint 100000 999999 entropy ≠ 0 := by omega
    rw [Nat.digits_len 10 _ (by norm_num) hne]
    have hlog : Nat.log 10 (randint 100000 999999 entropy) = 5 :=
      Nat.log_eq_of_pow_le_of_lt_pow (by norm_num; exact hge) (by norm_num; exact hlt)
    omega
  · exact ⟨"\n",
      "\n        <p style=\"font-size: 14px; color: #6c757d;\">\n            • URL: " ++
        ("https://" ++ customDomain) ++ "<br>\n        </p> <p>" ++
        ("Timestamp: " ++ (nowStr ++ " UTC")) ++ "</p>\n        ", rfl⟩
  · refine ⟨"\nEmail Delivery Test - Telegram Bot\n\nThis is a test email sent via Telegram Email Tester Bot.\n\n",
      "\n" ++ ("Button Text: " ++ Nat.repr (randint 100000 999999 entropy)) ++
        "\n\nIf you received this email, your SMTP configuration is working correctly!\n\n---\nThis email was sent by Telegram Email Tester Bot\n        ", ?_⟩
    simp only [create_test_message, textContent, String.append_assoc]
  · refine ⟨"\nEmail Delivery Test - Telegram Bot\n\nThis is a test email sent via Telegram Email Tester Bot.\n\n" ++
      ("Test Link: https://" ++ customDomain) ++ "\n",
      "\n\nIf you received this email, your SMTP configuration is working correctly!\n\n---\nThis email was sent by Telegram Email Tester Bot\n        ", ?_⟩
    simp only [create_test_message, textContent, String.append_assoc]

/-! ## Claim C2 — campaign iteration order and CONTINUE count -/

/-- Claim C2 (counterexample): the claim's domain-batch-major reading is
false on the code.  With 3 recipients, 12 domains and every send
succeeding, the first invocation sends only to recipient 0 (5 messages,
domains 0–4 — not one message to *every* recipient per domain of the
slice), and after the initial invocation plus 3 CONTINUE signals the
campaign is still active at recipient 1, domain cursor 5 — not COMPLETE. -/
theorem campaign_slice_cex :
    send_batch_step allOkCampaign 3 12 ⟨0, 0, 0, 0⟩ =
      BatchStepResult.continued ⟨0, 5, 5, 0⟩ [(0, 0), (0, 1), (0, 2), (0, 3), (0, 4)]
  ∧ campRun allOkCampaign 3 12 4 = CampPhase.active ⟨1, 5, 17, 0⟩
  ∧ isCompletedPhase (campRun allOkCampaign 3 12 4) = false := by
  decide

/-- Claim C2 (amended): each SENDING-state invocation is recipient-major —
it sends messages only to the single current recipient, one per domain of
the current slice of `min 5 remaining` domains, then advances the domain
cursor (moving to the next recipient when the domain list is exhausted);
consequently the 3-recipient × 12-domain campaign sends its last message on
the 9th invocation and reports COMPLETE on the 10th, i.e. 9 CONTINUE
signals after the initial invocation. -/
theorem campaign_recipient_major (o : CampaignOracle) (numRecipients numDomains : Nat)
    (st st' : CampaignSt) (sent : List (Nat × Nat))
    (h : send_batch_step o numRecipients numDomains st = BatchStepResult.continued st' sent) :
    (∀ p ∈ sent, p.1 = st.recipientIndex)
  ∧ sent.length = min 5 (numDomains - st.domainIndex)
  ∧ campRun allOkCampaign 3 12 9 = CampPhase.active ⟨3, 0, 36, 0⟩
  ∧ campRun allOkCampaign 3 12 10 = CampPhase.completed 36 0 := by
  have hs : sent = slicePairs st.recipientIndex st.domainIndex
      (sliceSize numDomains st.domainIndex) := by
    unfold send_batch_step at h
    split at h
    · simp at h
    · split at h
      · simp at h
      · split at h
        · injection h with h1 h2
          exact h2.symm
        · injection h with h1 h2
          exact h2.symm
  subst hs
  refine ⟨?_, ?_, by decide, by decide⟩
  · intro p hp
    unfold slicePairs at hp
    rcases List.mem_map.mp hp with ⟨i, hi, rfl⟩
    rfl
  · unfold slicePairs sliceSize
    simp

/-- Witness for `campaign_recipient_major` at a concrete mid-campaign
invocation. -/
theorem campaign_recipient_major_witness :
    send_batch_step allOkCampaign 3 12 ⟨1, 5, 17, 0⟩ =
      BatchStepResult.continued ⟨1, 10, 22, 0⟩ [(1, 5), (1, 6), (1, 7), (1, 8), (1, 9)]
  ∧ ((∀ p ∈ ([(1, 5), (1, 6), (1, 7), (1, 8), (1, 9)] : List (Nat × Nat)),
        p.1 = (⟨1, 5, 17, 0⟩ : CampaignSt).recipientIndex)
     ∧ ([(1, 5), (1, 6), (1, 7), (1, 8), (1, 9)] : List (Nat × Nat)).length =
         min 5 (12 - (⟨1, 5, 17, 0⟩ : CampaignSt).domainIndex)
     ∧ campRun allOkCampaign 3 12 9 = CampPhase.active ⟨3, 0, 36, 0⟩
     ∧ campRun allOkCampaign 3 12 10 = CampPhase.completed 36 0) :=
  ⟨by decide,
   campaign_recipient_major allOkCampaign 3 12 ⟨1, 5, 17, 0⟩ ⟨1, 10, 22, 0⟩
     [(1, 5), (1, 6), (1, 7), (1, 8), (1, 9)] (by decide)⟩

/-! ## Claim C6 — connect vs operation timeouts -/

/-- Claim C6 (counterexample): the claim asserts the connect timeout is
strictly shorter than the per-operation timeout in both the connection
test and the batch-send setup; in the source it is strictly *longer* in
both (15 s connect vs 12 s login in `_test_connection_sync`, 25 s connect
vs 20 s operation in `establish_connection`). -/
theorem timeout_ordering_cex :
    ¬(testConnectionTimeouts.connectTimeout < testConnectionTimeouts.operationTimeout
      ∧ batchConnectionTimeouts.connectTimeout < batchConnectionTimeouts.operationTimeout) := by
  decide

/-- Claim C6 (amended): in both the connection test and the batch-send
connection setup, the per-operation timeout applied to the established
socket is strictly shorter than the connect timeout. -/
theorem timeout_ordering :
    testConnectionTimeouts.operationTimeout < testConnectionTimeouts.connectTimeout
  ∧ batchConnectionTimeouts.operationTimeout < batchConnectionTimeouts.connectTimeout := by
  decide

/-! ## Claim C9 — the domain store keeps normalized URLs unique -/

theorem any_url_eq (ds : List DomainEntry) (u' : String) :
    ds.any (fun d => d.url == u') = true ↔ u' ∈ ds.map DomainEntry.url := by
  rw [List.any_eq_true]
  constructor
  · rintro ⟨d, hd, he⟩
    exact (beq_iff_eq.mp he) ▸ List.mem_map_of_mem DomainEntry.url hd
  · intro hm
    rcases List.mem_map.mp hm with ⟨d, hd, rfl⟩
    exact ⟨d, hd, beq_iff_eq.mpr rfl⟩

theorem bulk_step_invariant (base : List String)
    (acc : List DomainEntry × List String × List String) (line : String)
    (h1 : (acc.1.map DomainEntry.url).Nodup)
    (h2 : ∀ x ∈ base, x ∈ acc.1.map DomainEntry.url)
    (h3 : ∀ a ∈ acc.2.1, a ∉ base) :
    (((bulk_step acc line).1.map DomainEntry.url).Nodup)
  ∧ (∀ x ∈ base, x ∈ (bulk_step acc line).1.map DomainEntry.url)
  ∧ (∀ a ∈ (bulk_step acc line).2.1, a ∉ base) := by
  unfold bulk_step
  split
  · exact ⟨h1, h2, h3⟩
  · split
    · exact ⟨h1, h2, h3⟩
    · rename_i hany
      have hnew : normalizeUrl line ∉ acc.1.map DomainEntry.url := by
        intro hmem
        exact hany ((any_url_eq acc.1 (normalizeUrl line)).mpr hmem)
      refine ⟨?_, ?_, ?_⟩
      · simp only [List.map_append, List.map_cons, List.map_nil]
        rw [List.nodup_append]
        refine ⟨h1, List.nodup_singleton _, ?_⟩
        intro a ha hb
        rw [List.mem_singleton] at hb
        exact hnew (hb ▸ ha)
      · intro x hx
        simp only [List.map_append, List.mem_append]
        exact Or.inl (h2 x hx)
      · intro a ha
        rcases List.mem_append.mp ha with ha' | ha'
        · exact h3 a ha'
        · rw [List.mem_singleton] at ha'
          subst ha'
          intro hbase
          exact hnew (h2 _ hbase)

theorem bulk_fold_invariant (base : List String) :
    ∀ (lines : List String) (acc : List DomainEntry × List String × List String),
      (acc.1.map DomainEntry.url).Nodup →
      (∀ x ∈ base, x ∈ acc.1.map DomainEntry.url) →
      (∀ a ∈ acc.2.1, a ∉ base) →
      (((lines.foldl bulk_step acc).1.map DomainEntry.url).Nodup)
    ∧ (∀ a ∈ (lines.foldl bulk_step acc).2.1, a ∉ base) := by
  intro lines
  induction lines with
  | nil =>
    intro acc h1 _ h3
    exact ⟨h1, h3⟩
  | cons line rest ih =>
    intro acc h1 h2 h3
    simp only [List.foldl_cons]
    obtain ⟨g1, g2, g3⟩ := bulk_step_invariant base acc line h1 h2 h3
    exact ih (bulk_step acc line) g1 g2 g3

/-- Claim C9: when the stored URLs are pairwise distinct, every store
operation preserves that uniqueness — `add_domain` (which normalizes by
stripping the `http://`/`https://` prefix and trailing slashes) returns
`False` and leaves the store unchanged when the normalized URL is already
present; `remove_domain` only removes entries; and `add_bulk_domains` skips
URLs already stored (nothing already present ever appears in its `added`
list, and within-batch duplicates are skipped against the growing store). -/
theorem domain_store_uniqueness (ds : List DomainEntry) (u n du txt : String)
    (h : (ds.map DomainEntry.url).Nodup) :
    (((add_domain ds u n).2.map DomainEntry.url).Nodup)
  ∧ (normalizeUrl u ∈ ds.map DomainEntry.url → add_domain ds u n = (false, ds))
  ∧ (((remove_domain ds du).2.map DomainEntry.url).Nodup)
  ∧ (((add_bulk_domains ds txt).2.map DomainEntry.url).Nodup)
  ∧ (∀ a ∈ (add_bulk_domains ds txt).1.added, a ∉ ds.map DomainEntry.url) := by
  refine ⟨?_, ?_, ?_, ?_, ?_⟩
  · unfold add_domain
    split
    · exact h
    · rename_i hany
      have hnew : normalizeUrl u ∉ ds.map DomainEntry.url := by
        intro hmem
        exact hany ((any_url_eq ds (normalizeUrl u)).mpr hmem)
      simp only [List.map_append, List.map_cons, List.map_nil]
      rw [List.nodup_append]
      refine ⟨h, List.nodup_singleton _, ?_⟩
      intro a ha hb
      rw [List.mem_singleton] at hb
      exact hnew (hb ▸ ha)
  · intro hmem
    unfold add_domain
    rw [if_pos ((any_url_eq ds (normalizeUrl u)).mpr hmem)]
  · exact ((List.filter_sublist ds).map DomainEntry.url).nodup h
  · exact (bulk_fold_invariant (ds.map DomainEntry.url) _ (ds, [], []) h
      (fun x hx => hx) (by intro a ha; cases ha)).1
  · exact (bulk_fold_invariant (ds.map DomainEntry.url) _ (ds, [], []) h
      (fun x hx => hx) (by intro a ha; cases ha)).2

/-- Witness for `domain_store_uniqueness` on a concrete store, with the
already-present branch of `add_domain` additionally instantiated. -/
theorem domain_store_uniqueness_witness :
    (([⟨"x.co", "X"⟩] : List DomainEntry).map DomainEntry.url).Nodup
  ∧ normalizeUrl "https://x.co/" ∈ ([⟨"x.co", "X"⟩] : List DomainEntry).map DomainEntry.url
  ∧ add_domain [⟨"x.co", "X"⟩] "https://x.co/" "Y" = (false, [⟨"x.co", "X"⟩])
  ∧ (((add_bulk_domains [⟨"x.co", "X"⟩] "x.co\nnew.io").2.map DomainEntry.url).Nodup)
  ∧ (∀ a ∈ (add_bulk_domains [⟨"x.co", "X"⟩] "x.co\nnew.io").1.added,
       a ∉ ([⟨"x.co", "X"⟩] : List DomainEntry).map DomainEntry.url) :=
  ⟨by decide, by decide,
   (domain_store_uniqueness [⟨"x.co", "X"⟩] "https://x.co/" "Y" "x.co" "x.co\nnew.io"
     (by decide)).2.1 (by decide),
   (domain_store_uniqueness [⟨"x.co", "X"⟩] "https://x.co/" "Y" "x.co" "x.co\nnew.io"
     (by decide)).2.2.2.1,
   (domain_store_uniqueness [⟨"x.co", "X"⟩] "https://x.co/" "Y" "x.co" "x.co\nnew.io"
     (by decide)).2.2.2.2⟩

/-! ## Claim C10 — email-list validation partitions its input -/

theorem length_filter_add_length_filter_not (l : List String) (p : String → Bool) :
    (l.filter p).length + (l.filter (fun x => !p x)).length = l.length := by
  induction l with
  | nil => rfl
  | cons x xs ih =>
    by_cases h : p x <;> simp [List.filter_cons, h, ← ih] <;> omega

/-- Claim C10: `validate_email_list` (the shadowing second definition of
validators.py) rejects every list of more than 100 addresses wholesale with
`valid = False` and `valid_count = 0`, and for every non-empty list of at
most 100 addresses it partitions the input into `valid_emails` /
`invalid_emails` (the `validate_email`-filtered sublists, in order) with
`valid_count + invalid_count` equal to the input length. -/
theorem validate_email_list_partition (emails : List String) :
    (100 < emails.length →
       (validate_email_list emails).valid = false
     ∧ (validate_email_list emails).valid_count = 0)
  ∧ (emails ≠ [] → emails.length ≤ 100 →
       (validate_email_list emails).valid_emails = emails.filter validate_email
     ∧ (validate_email_list emails).invalid_emails =
         emails.filter (fun e => !validate_email e)
     ∧ (validate_email_list emails).valid_count + (validate_email_list emails).invalid_count
         = emails.length) := by
  constructor
  · intro h100
    have hne : ¬ emails.isEmpty = true := by
      intro habs
      rw [List.isEmpty_iff] at habs
      subst habs
      simp at h100
    unfold validate_email_list
    rw [if_neg hne, if_pos h100]
    exact ⟨rfl, rfl⟩
  · intro hnil h100
    have hne : ¬ emails.isEmpty = true := by
      intro habs
      exact hnil (List.isEmpty_iff.mp habs)
    have h100' : ¬ 100 < emails.length := by omega
    unfold validate_email_list
    rw [if_neg hne, if_neg h100']
    exact ⟨rfl, rfl, length_filter_add_length_filter_not emails validate_email⟩

/-- Witness for `validate_email_list_partition`: the over-limit half at a
101-element list, the partition half at a concrete 2-element list. -/
theorem validate_email_list_partition_witness :
    (100 < (List.replicate 101 "a@b.co").length
     ∧ ((validate_email_list (List.replicate 101 "a@b.co")).valid = false
        ∧ (validate_email_list (List.replicate 101 "a@b.co")).valid_count = 0))
  ∧ ((["a@b.co", "bad"] : List String) ≠ []
     ∧ (["a@b.co", "bad"] : List String).length ≤ 100
     ∧ ((validate_email_list ["a@b.co", "bad"]).valid_emails =
          (["a@b.co", "bad"] : List String).filter validate_email
        ∧ (validate_email_list ["a@b.co", "bad"]).invalid_emails =
            (["a@b.co", "bad"] : List String).filter (fun e => !validate_email e)
        ∧ (validate_email_list ["a@b.co", "bad"]).valid_count +
            (validate_email_list ["a@b.co", "bad"]).invalid_count =
            (["a@b.co", "bad"] : List String).length)) :=
  ⟨⟨by decide, (validate_email_list_partition (List.replicate 101 "a@b.co")).1 (by decide)⟩,
   ⟨by decide, by decide,
    (validate_email_list_partition ["a@b.co", "bad"]).2 (by decide) (by decide)⟩⟩

/-! ## Rendering checks against the Python f-strings -/

set_option maxRecDepth 10000 in
example : htmlContent "d.co" "123456" "2024-01-01 00:00:00 UTC" =
  "\n<a href=\"https://d.co\" target=\"_blank\" style=\"display: inline-block; text-decoration: none; background-color: blue; color: white; padding: 10px 20px; border-radius: 4px; font-weight: bold;\">123456</a>\n        <p style=\"font-size: 14px; color: #6c757d;\">\n            • URL: https://d.co<br>\n        </p> <p>Timestamp: 2024-01-01 00:00:00 UTC</p>\n        " := by
  decide

set_option maxRecDepth 10000 in
example : textContent "d.co" "123456" =
  "\nEmail Delivery Test - Telegram Bot\n\nThis is a test email sent via Telegram Email Tester Bot.\n\nTest Link: https://d.co\nButton Text: 123456\n\nIf you received this email, your SMTP configuration is working correctly!\n\n---\nThis email was sent by Telegram Email Tester Bot\n        " := by
  decide
